import Mathlib

/-!
Verification of the archival pipeline scripts (`bin/archive.py` and
`bin/imgsizes.py`) against their natural-language design specification.

The development is a shallow embedding of the two Python scripts.

`bin/archive.py` (lines 60-98) copies a source tree into an archive layout,
locks the copy read-only, produces a gpg clear-signed checksum manifest and a
gpg-encrypted compressed tarball.  Its main body is straight-line effectful
code; we model it in two complementary ways:

* A directory-tree model (`FsTree`/`FsForest`, mutually inductive) for the
  snapshot stage (lines 71-77): the `os.walk` file enumeration (`filesList`)
  and the read-only locking loop (`lockForest`/`snapshotLock`).  Children of a
  directory are carried in directory-listing order, which is the (arbitrary,
  filesystem-determined) order `os.scandir`, and hence `os.walk`, reports.

* A run model (`archiveRun`) for the whole pipeline: a function of the initial
  filesystem state (`FsInit`, which of the layout directories already exist)
  and an oracle (`Collab`) giving the outcome of each external tool invocation
  (b2sum, gpg --clearsign, tar, gpg -e).  The run returns the process exit
  code, which final artifacts exist, and a trace of the filesystem-visible
  actions in program order (`Ev`), so that claims about atomic writes and
  temporary-file lifetimes can be stated.  An uncaught Python exception
  (`FileExistsError` from `os.makedirs`/`shutil.copytree`,
  `CalledProcessError` from a `check=True` subprocess, `FileNotFoundError`
  from `os.stat` on a missing output) terminates the interpreter with exit
  code 1; the model threads this as an early return.

`bin/imgsizes.py` is a batch image converter; its conversion loop
(lines 52-107) is modelled by `convertLoop` over the per-invocation outcomes
of the external `convert` tool.
-/

namespace Archive

/-! ## Permission model of `set_readonly` (archive.py lines 47-49)

`set_readonly(path)` reads `os.stat(path).st_mode`, masks it with `0o555` and
chmods the path to the result.  We model the mode word as a natural number and
a single call as the pure function it applies to that word. -/

/-- Model of `set_readonly` (archive.py lines 47-49) acting on a permission
mode word: the new mode is the old mode masked with `0o555`. -/
def setReadonlyMode (m : Nat) : Nat := m &&& 0o555

/-- The write-permission bits (owner, group, other): `0o222`. -/
def writeBits : Nat := 0o222

/-! ## Directory trees and the snapshot stage (archive.py lines 71-77)

A tree is a file or a directory with a name and a permission mode; a directory
carries its children in directory-listing order.  `FsTree`/`FsForest` are
mutually inductive so that all recursions below are structural. -/

mutual
inductive FsTree where
  | file (name : String) (mode : Nat) : FsTree
  | dir (name : String) (mode : Nat) (children : FsForest) : FsTree
inductive FsForest where
  | nil : FsForest
  | cons (hd : FsTree) (tl : FsForest) : FsForest
end

/-- Model of `os.path.normpath(os.path.join(dirpath, name))` for the paths
`os.walk(".")` produces: joining to the root `"."` yields the bare name
(normpath strips the leading `./`), otherwise the components are joined
with `/`. -/
def joinNorm (dirpath name : String) : String :=
  if dirpath = "." then name else dirpath ++ "/" ++ name

/-- The `fnames` contribution of one `os.walk` entry to `files_list`
(archive.py line 74): the normalized joined path of every file child of the
directory, in listing order. -/
def levelFiles (dirpath : String) : FsForest → List String
  | .nil => []
  | .cons (.file n _) tl => joinNorm dirpath n :: levelFiles dirpath tl
  | .cons (.dir _ _ _) tl => levelFiles dirpath tl

/-- The contribution of the recursive `os.walk` descent below one directory:
for each directory child (in listing order), first its own file children, then
its deeper descendants.  `os.walk` is top-down, so within a directory all of
its files are enumerated before any file of its subdirectories. -/
def walkSub (dirpath : String) : FsForest → List String
  | .nil => []
  | .cons (.file _ _) tl => walkSub dirpath tl
  | .cons (.dir n _ cs) tl =>
      (levelFiles (joinNorm dirpath n) cs ++ walkSub (joinNorm dirpath n) cs)
        ++ walkSub dirpath tl

/-- Model of `files_list` as built by archive.py lines 72-74: the `os.walk(".")`
enumeration of all files under the destination copy, whose root has the given
children.  No sorting is applied anywhere in the source. -/
def filesList (children : FsForest) : List String :=
  levelFiles "." children ++ walkSub "." children

mutual
/-- Effect of the locking loop on a single non-root node: every node of the
copied tree except the root is `set_readonly`-ed exactly once, by the walk
entry of its parent directory (archive.py lines 75-76, `for name in fnames +
dirnames: set_readonly(...)`).  `chmod` only changes the mode word of the node
itself, so the loop's net effect is this structural map. -/
def lockTree : FsTree → FsTree
  | .file n m => .file n (setReadonlyMode m)
  | .dir n m cs => .dir n (setReadonlyMode m) (lockForest cs)
/-- Locking applied to every tree of a forest, in order. -/
def lockForest : FsForest → FsForest
  | .nil => .nil
  | .cons hd tl => .cons (lockTree hd) (lockForest tl)
end

/-- Model of the whole snapshot locking step (archive.py lines 71-77): the
destination copy is a directory (named `"."` after the `os.chdir`) whose
children are all locked by the walk loop (lines 73-76) and whose own mode is
locked by the final `set_readonly(".")` (line 77). -/
def snapshotLock (rootMode : Nat) (children : FsForest) : FsTree :=
  FsTree.dir "." (setReadonlyMode rootMode) (lockForest children)

mutual
/-- Decides whether every node of a tree, including the root, has all write
bits (`0o222`) clear. -/
def treeModesLocked : FsTree → Bool
  | .file _ m => m &&& 0o222 == 0
  | .dir _ m cs => (m &&& 0o222 == 0) && forestModesLocked cs
/-- Forest version of `treeModesLocked`. -/
def forestModesLocked : FsForest → Bool
  | .nil => true
  | .cons hd tl => treeModesLocked hd && forestModesLocked tl
end

mutual
/-- Number of files in a tree. -/
def treeFileCount : FsTree → Nat
  | .file _ _ => 1
  | .dir _ _ cs => forestFileCount cs
/-- Number of files in a forest. -/
def forestFileCount : FsForest → Nat
  | .nil => 0
  | .cons hd tl => treeFileCount hd + forestFileCount tl
end

/-- Lexicographic comparison of character lists by code point (the order in
which byte-wise distinct relative paths compare). -/
def charListLe : List Char → List Char → Bool
  | [], _ => true
  | _ :: _, [] => false
  | a :: as, b :: bs =>
      if a.toNat < b.toNat then true
      else if b.toNat < a.toNat then false
      else charListLe as bs

/-- Lexicographic order on strings by code point. -/
def strLe (a b : String) : Bool := charListLe a.data b.data

/-- Decides whether a list of paths is sorted (non-decreasing) in the
lexicographic order. -/
def isSortedLe : List String → Bool
  | [] => true
  | [_] => true
  | a :: b :: rest => strLe a b && isSortedLe (b :: rest)

/-! ## Run model of the pipeline driver (archive.py lines 60-98) -/

/-- The external tools invoked via `subprocess.run`: `b2sum` (line 84), `gpg
-as --clearsign` (lines 85-87), `tar cJ` (line 95), `gpg -e` (line 96). -/
inductive Tool where
  | b2sum
  | gpgSign
  | tar
  | gpgEncrypt
deriving DecidableEq, Fintype

/-- The filesystem locations the script touches, in the split layout
`ARCHIVE_PATH/files/IDENT`, `ARCHIVE_PATH/checksums/IDENT.b2sum`,
`ARCHIVE_PATH/tarballs/IDENT.archive`, plus the two `NamedTemporaryFile`s,
which live in the system temporary directory (not in the archive layout). -/
inductive PathId where
  | archiveFilesDir
  | filesDest
  | checksumsDir
  | checksumFile
  | tarballsDir
  | tarballFile
  | tmpChecksum
  | tmpTar
deriving DecidableEq, Fintype

/-- Parent directory of each file location within the modelled layout
(`none` for the layout directories themselves and for the temporary files,
whose directory is the system temporary directory, outside the layout). -/
def dirOf : PathId → Option PathId
  | .filesDest => some .archiveFilesDir
  | .checksumFile => some .checksumsDir
  | .tarballFile => some .tarballsDir
  | _ => none

/-- Filesystem-visible actions of one run, in program order.  `rename` is the
action an atomic temp-then-rename write would perform (`os.rename` or
`os.replace`); the script never performs it, but the constructor is needed to
state the atomic-write claim. -/
inductive Ev where
  | makedirs (p : PathId)
  | copytree (dst : PathId)
  | lockFiles
  | tmpOpen (p : PathId)
  | toolRun (t : Tool) (out : PathId)
  | tmpClose (p : PathId)
  | chmod (p : PathId)
  | rename (src : PathId) (dst : PathId)
deriving DecidableEq, Fintype

/-- Outcome oracle for the external tool invocations of one run.  The two gpg
invocations receive the final destination path via `-o` and are run without
`check=True`; gpg is a black-box collaborator, so whether a failing invocation
leaves (partial) output behind at its `-o` path is not under the script's
control and is modelled as a parameter (`signWritesOnFail`,
`encryptWritesOnFail`).  `b2sum` and `tar` are run with `check=True` and write
to the temporary file, so only their exit status matters. -/
structure Collab where
  b2sumOk : Bool
  signOk : Bool
  signWritesOnFail : Bool
  tarOk : Bool
  encryptOk : Bool
  encryptWritesOnFail : Bool
deriving DecidableEq, Fintype

/-- Which directories of the archive layout already exist when the run starts.
A fresh archive path has none of them; any earlier run (successful or not)
that got past line 69 leaves `ARCHIVE_PATH/files` behind. -/
structure FsInit where
  filesParentExists : Bool
  filesDestExists : Bool
  checksumsParentExists : Bool
  tarballsParentExists : Bool
deriving DecidableEq, Fintype

/-- Result of one run: process exit code, whether the copy stage ran, which
final artifacts exist at their destination paths when the process ends, and
the event trace. -/
structure RunResult where
  exit : Nat
  copied : Bool
  checksumFileExists : Bool
  tarballFileExists : Bool
  events : List Ev
deriving DecidableEq

/-- Model of the main body of archive.py (lines 68-98), one branch per exit
path, in program order:

* line 69 `os.makedirs(os.path.dirname(files_dest_path))` raises
  `FileExistsError` when `ARCHIVE_PATH/files` already exists (uncaught, so the
  interpreter exits with code 1 before anything is copied);
* line 70 `shutil.copytree` raises `FileExistsError` when the destination
  itself already exists;
* lines 71-77 lock the copy (detailed by `snapshotLock`), line 78 prints;
* line 82 `os.makedirs` for `ARCHIVE_PATH/checksums`, same failure mode;
* lines 83-87: a `NamedTemporaryFile` is opened; `b2sum` writes the raw
  checksum text into it with `check=True`, so a failure raises
  `CalledProcessError`, the `with` block deletes the temporary file on the way
  out and the interpreter exits 1; then `gpg -as --clearsign -o checksum_path`
  runs WITHOUT `check=True`, so its exit status is ignored; leaving the block
  deletes the temporary file;
* line 88 `set_readonly(checksum_path)`: if gpg failed leaving no output, the
  `os.stat` raises `FileNotFoundError` and the interpreter exits 1; if gpg
  left (partial) output, or succeeded, the file is chmodded and the run
  continues;
* lines 92-97 repeat the same shape for `tar cJ` (with `check=True`) and
  `gpg -e -o tarball_path` (without), ending with `set_readonly(tarball_path)`;
* line 98 prints and the interpreter exits 0. -/
def archiveRun (fs : FsInit) (c : Collab) : RunResult :=
  if fs.filesParentExists then
    { exit := 1, copied := false, checksumFileExists := false,
      tarballFileExists := false, events := [] }
  else if fs.filesDestExists then
    { exit := 1, copied := false, checksumFileExists := false,
      tarballFileExists := false,
      events := [.makedirs .archiveFilesDir] }
  else if fs.checksumsParentExists then
    { exit := 1, copied := true, checksumFileExists := false,
      tarballFileExists := false,
      events := [.makedirs .archiveFilesDir, .copytree .filesDest, .lockFiles] }
  else if !c.b2sumOk then
    { exit := 1, copied := true, checksumFileExists := false,
      tarballFileExists := false,
      events := [.makedirs .archiveFilesDir, .copytree .filesDest, .lockFiles,
                 .makedirs .checksumsDir, .tmpOpen .tmpChecksum,
                 .toolRun .b2sum .tmpChecksum, .tmpClose .tmpChecksum] }
  else if !(c.signOk || c.signWritesOnFail) then
    { exit := 1, copied := true, checksumFileExists := false,
      tarballFileExists := false,
      events := [.makedirs .archiveFilesDir, .copytree .filesDest, .lockFiles,
                 .makedirs .checksumsDir, .tmpOpen .tmpChecksum,
                 .toolRun .b2sum .tmpChecksum, .toolRun .gpgSign .checksumFile,
                 .tmpClose .tmpChecksum] }
  else if fs.tarballsParentExists then
    { exit := 1, copied := true, checksumFileExists := true,
      tarballFileExists := false,
      events := [.makedirs .archiveFilesDir, .copytree .filesDest, .lockFiles,
                 .makedirs .checksumsDir, .tmpOpen .tmpChecksum,
                 .toolRun .b2sum .tmpChecksum, .toolRun .gpgSign .checksumFile,
                 .tmpClose .tmpChecksum, .chmod .checksumFile] }
  else if !c.tarOk then
    { exit := 1, copied := true, checksumFileExists := true,
      tarballFileExists := false,
      events := [.makedirs .archiveFilesDir, .copytree .filesDest, .lockFiles,
                 .makedirs .checksumsDir, .tmpOpen .tmpChecksum,
                 .toolRun .b2sum .tmpChecksum, .toolRun .gpgSign .checksumFile,
                 .tmpClose .tmpChecksum, .chmod .checksumFile,
                 .makedirs .tarballsDir, .tmpOpen .tmpTar,
                 .toolRun .tar .tmpTar, .tmpClose .tmpTar] }
  else if !(c.encryptOk || c.encryptWritesOnFail) then
    { exit := 1, copied := true, checksumFileExists := true,
      tarballFileExists := false,
      events := [.makedirs .archiveFilesDir, .copytree .filesDest, .lockFiles,
                 .makedirs .checksumsDir, .tmpOpen .tmpChecksum,
                 .toolRun .b2sum .tmpChecksum, .toolRun .gpgSign .checksumFile,
                 .tmpClose .tmpChecksum, .chmod .checksumFile,
                 .makedirs .tarballsDir, .tmpOpen .tmpTar,
                 .toolRun .tar .tmpTar, .toolRun .gpgEncrypt .tarballFile,
                 .tmpClose .tmpTar] }
  else
    { exit := 0, copied := true, checksumFileExists := true,
      tarballFileExists := true,
      events := [.makedirs .archiveFilesDir, .copytree .filesDest, .lockFiles,
                 .makedirs .checksumsDir, .tmpOpen .tmpChecksum,
                 .toolRun .b2sum .tmpChecksum, .toolRun .gpgSign .checksumFile,
                 .tmpClose .tmpChecksum, .chmod .checksumFile,
                 .makedirs .tarballsDir, .tmpOpen .tmpTar,
                 .toolRun .tar .tmpTar, .toolRun .gpgEncrypt .tarballFile,
                 .tmpClose .tmpTar, .chmod .tarballFile] }

/-- Recognizes the opening of the given temporary file. -/
def isTmpOpen (p : PathId) (e : Ev) : Bool :=
  match e with
  | .tmpOpen q => q == p
  | _ => false

/-- Recognizes the deletion of the given temporary file. -/
def isTmpClose (p : PathId) (e : Ev) : Bool :=
  match e with
  | .tmpClose q => q == p
  | _ => false

/-- Holds of an event when it does not place unencrypted intermediate content
outside a temporary file: the raw checksum text (`b2sum` stdout) may only go
to its temporary file and the unencrypted compressed tar stream (`tar cJ`
stdout) only to its temporary file. -/
def unencryptedOnlyInTmp (e : Ev) : Bool :=
  match e with
  | .toolRun .b2sum out => out == .tmpChecksum
  | .toolRun .tar out => out == .tmpTar
  | _ => true

/-- Decides that a trace contains no rename action at all. -/
def noRename (evs : List Ev) : Bool :=
  evs.all fun e =>
    match e with
    | .rename _ _ => false
    | _ => true

/-- Formalization of the atomic-write discipline the specification describes
for a final artifact: some path in the same destination directory, distinct
from the final name, is renamed over the final name during the run. -/
def atomicallyWritten (evs : List Ev) (final : PathId) : Prop :=
  ∃ t : PathId, t ≠ final ∧ dirOf t = dirOf final ∧ Ev.rename t final ∈ evs

instance (evs : List Ev) (final : PathId) : Decidable (atomicallyWritten evs final) := by
  unfold atomicallyWritten
  infer_instance

/-- Initial filesystem state of a fresh archive path: none of the layout
directories exist yet. -/
def freshFs : FsInit :=
  { filesParentExists := false, filesDestExists := false,
    checksumsParentExists := false, tarballsParentExists := false }

/-- Oracle of a fully successful run: every tool succeeds. -/
def allOk : Collab :=
  { b2sumOk := true, signOk := true, signWritesOnFail := false,
    tarOk := true, encryptOk := true, encryptWritesOnFail := false }

/-- Oracle of a run in which the signing collaborator fails after having
produced (partial) output at its `-o` destination, all other tools succeed. -/
def signFailsPartial : Collab :=
  { b2sumOk := true, signOk := false, signWritesOnFail := true,
    tarOk := true, encryptOk := true, encryptWritesOnFail := false }

/-- Oracle of a run in which the encryption collaborator fails after having
produced (partial) output at its `-o` destination, all other tools succeed. -/
def encryptFailsPartial : Collab :=
  { b2sumOk := true, signOk := true, signWritesOnFail := false,
    tarOk := true, encryptOk := false, encryptWritesOnFail := true }

end Archive

namespace ImgSizes

/-! ## Model of the conversion loop of `imgsizes.py` (lines 52-107)

Each source image gives rise to two `convert` invocations (the 1920px and the
800px variant), each wrapped in its own `try`/`except
subprocess.CalledProcessError` handler that sets `had_error = True` and
continues.  The outcome of each invocation is an oracle boolean; an image is
modelled by the pair `(ok1920, ok800)` of its two invocation outcomes. -/

/-- One pass of the loop body over the remaining sources, threading the
`had_error` flag (imgsizes.py lines 52-100): the 1920px conversion is
attempted, a failure sets `had_error` and execution continues; then the 800px
conversion likewise; then the next source.  Returns the number of `convert`
invocations attempted and the final value of `had_error`. -/
def convertLoop : List (Bool × Bool) → Bool → Nat × Bool
  | [], e => (0, e)
  | (ok1920, ok800) :: rest, e =>
      ((convertLoop rest (if ok800 then (if ok1920 then e else true) else true)).1 + 2,
       (convertLoop rest (if ok800 then (if ok1920 then e else true) else true)).2)

/-- The whole script after argument handling (imgsizes.py lines 52-107): run
the loop with `had_error = False`, then exit 0 if `had_error` is still false
and exit 1 otherwise (lines 102-107).  Returns (number of attempted
conversions, exit code). -/
def imgsizesMain (sources : List (Bool × Bool)) : Nat × Nat :=
  let r := convertLoop sources false
  (r.1, if r.2 then 1 else 0)

end ImgSizes

/-! ## Helper lemmas -/

/-- Walking a forest enumerates exactly as many paths as there are files below
it: the level contribution plus the descent contribution of each entry. -/
def walkSub_count : (dp : String) → (f : Archive.FsForest) →
    (Archive.levelFiles dp f).length + (Archive.walkSub dp f).length =
      Archive.forestFileCount f
  | _, .nil => rfl
  | dp, .cons (.file n m) tl => by
      have h := walkSub_count dp tl
      simp only [Archive.levelFiles, Archive.walkSub, Archive.forestFileCount,
        Archive.treeFileCount, List.length_cons]
      omega
  | dp, .cons (.dir n m cs) tl => by
      have h1 := walkSub_count (Archive.joinNorm dp n) cs
      have h2 := walkSub_count dp tl
      simp only [Archive.levelFiles, Archive.walkSub, Archive.forestFileCount,
        Archive.treeFileCount, List.length_append]
      omega

/-- A mode masked with `0o555` has no write bit set. -/
theorem setReadonlyMode_no_write (m : Nat) :
    (Archive.setReadonlyMode m &&& 0o222 == 0) = true := by
  simp only [Archive.setReadonlyMode, Nat.land_assoc,
    show ((0o555 : Nat) &&& 0o222) = 0 from by decide, Nat.and_zero]
  rfl

mutual
/-- Every node of a locked tree has all write bits clear. -/
def lockTree_locked : (t : Archive.FsTree) →
    Archive.treeModesLocked (Archive.lockTree t) = true
  | .file n m => by
      simp only [Archive.lockTree, Archive.treeModesLocked]
      exact setReadonlyMode_no_write m
  | .dir n m cs => by
      simp only [Archive.lockTree, Archive.treeModesLocked, Bool.and_eq_true]
      exact ⟨setReadonlyMode_no_write m, lockForest_locked cs⟩
/-- Every node of a locked forest has all write bits clear. -/
def lockForest_locked : (f : Archive.FsForest) →
    Archive.forestModesLocked (Archive.lockForest f) = true
  | .nil => rfl
  | .cons hd tl => by
      simp only [Archive.lockForest, Archive.forestModesLocked, Bool.and_eq_true]
      exact ⟨lockTree_locked hd, lockForest_locked tl⟩
end

/-- The number of `convert` invocations performed by the loop is twice the
number of sources, whatever the incoming error flag and the outcomes. -/
theorem convertLoop_fst (l : List (Bool × Bool)) :
    ∀ e, (ImgSizes.convertLoop l e).1 = 2 * l.length := by
  induction l with
  | nil => intro e; rfl
  | cons hd tl ih =>
    intro e
    obtain ⟨a, b⟩ := hd
    simp only [ImgSizes.convertLoop, List.length_cons, ih]
    ring

/-- The final `had_error` flag is the disjunction of the incoming flag with
failure of any invocation. -/
theorem convertLoop_snd (l : List (Bool × Bool)) :
    ∀ e, (ImgSizes.convertLoop l e).2 = (e || l.any fun s => !s.1 || !s.2) := by
  induction l with
  | nil => intro e; simp [ImgSizes.convertLoop]
  | cons hd tl ih =>
    intro e
    obtain ⟨a, b⟩ := hd
    simp only [ImgSizes.convertLoop, ih, List.any_cons]
    cases a <;> cases b <;> cases e <;> simp

/-! ## Theorems for the claims -/

/-- C1: the code contradicts the claim that a failing signing collaborator is
a hard failure after which no manifest exists.  In the run in which `gpg -as
--clearsign` exits nonzero after producing (partial) output at the destination
manifest path and every other tool succeeds, the pipeline does not abort at
the checksums stage: the partial manifest remains at the destination, the
tarball stage still runs its encryption, and the process exits 0.  The cause
is the missing `check=True` on the gpg invocation (archive.py lines 85-87),
which the gpg invocations alone lack. -/
theorem sign_failure_not_fatal_bug :
    (Archive.archiveRun Archive.freshFs Archive.signFailsPartial).exit = 0 ∧
    (Archive.archiveRun Archive.freshFs Archive.signFailsPartial).checksumFileExists = true ∧
    Archive.Ev.toolRun Archive.Tool.gpgEncrypt Archive.PathId.tarballFile ∈
      (Archive.archiveRun Archive.freshFs Archive.signFailsPartial).events := by
  refine ⟨rfl, rfl, ?_⟩
  decide

/-- C2: the code contradicts the claim that after a failing encryption
collaborator no bundle exists at the destination.  In the run in which
`gpg -e` exits nonzero after producing (partial) output at the destination
tarball path and every other tool succeeds, the partial bundle remains at the
destination tarball path and the process even exits 0: gpg is handed the final
path directly via `-o` (archive.py line 96) and its exit status is not
checked. -/
theorem encrypt_failure_leaves_bundle_bug :
    (Archive.archiveRun Archive.freshFs Archive.encryptFailsPartial).exit = 0 ∧
    (Archive.archiveRun Archive.freshFs Archive.encryptFailsPartial).tarballFileExists = true := by
  exact ⟨rfl, rfl⟩

/-- C3 counterexample: in the fully successful run on a fresh archive path,
neither the signed manifest nor the encrypted bundle is written by renaming a
temporary file of the destination directory over the final name; the trace
contains no rename at all, so the claimed atomic-write discipline fails at
this concrete run. -/
theorem outputs_not_atomic_cex :
    ¬ (Archive.atomicallyWritten
        (Archive.archiveRun Archive.freshFs Archive.allOk).events
        Archive.PathId.checksumFile ∧
       Archive.atomicallyWritten
        (Archive.archiveRun Archive.freshFs Archive.allOk).events
        Archive.PathId.tarballFile) := by
  decide

/-- C3 amended: no run of the pipeline ever performs a rename; instead the
external gpg process writes the signed manifest and the encrypted bundle
directly to their final destination paths (via `-o`), as the successful run's
trace shows; the temporary files hold only the unsigned checksum text and the
unencrypted tar stream, and live in the system temporary directory rather
than the destination directory. -/
theorem outputs_written_directly :
    (∀ (fs : Archive.FsInit) (c : Archive.Collab),
      Archive.noRename (Archive.archiveRun fs c).events = true) ∧
    Archive.Ev.toolRun Archive.Tool.gpgSign Archive.PathId.checksumFile ∈
      (Archive.archiveRun Archive.freshFs Archive.allOk).events ∧
    Archive.Ev.toolRun Archive.Tool.gpgEncrypt Archive.PathId.tarballFile ∈
      (Archive.archiveRun Archive.freshFs Archive.allOk).events ∧
    Archive.dirOf Archive.PathId.tmpChecksum ≠
      Archive.dirOf Archive.PathId.checksumFile ∧
    Archive.dirOf Archive.PathId.tmpTar ≠
      Archive.dirOf Archive.PathId.tarballFile := by
  refine ⟨by decide, by decide, by decide, by decide, by decide⟩

/-- C4: after the snapshot stage, every file and every directory of the
destination copy, including its root, has owner, group and other write
permission bits cleared: the locking walk (archive.py lines 73-76) locks every
non-root node and line 77 locks the root. -/
theorem snapshot_locks_everything (rootMode : Nat) (children : Archive.FsForest) :
    Archive.treeModesLocked (Archive.snapshotLock rootMode children) = true := by
  simp only [Archive.snapshotLock, Archive.treeModesLocked, Bool.and_eq_true]
  exact ⟨setReadonlyMode_no_write rootMode, lockForest_locked children⟩

/-- C5 counterexample: the file list is not sorted for every source tree.  For
a source whose root directory listing reports `b.txt` before `a.txt` (the
listing order of `os.scandir` is arbitrary and archive.py lines 72-74 apply no
sorting), `files_list` is `[b.txt, a.txt]`, which is not sorted. -/
theorem files_list_not_sorted_cex :
    Archive.isSortedLe (Archive.filesList
      (.cons (.file "b.txt" 0o644) (.cons (.file "a.txt" 0o644) .nil))) = false := by
  decide

/-- C5 amended: the file list is the `os.walk` enumeration order, complete
(one entry per file below the root) but sorted only to the extent the
directory listings are: all files directly in a directory precede all files of
its subdirectories, so for the specification's scenario source containing
`a.txt` and `sub/b.txt` the list is `[a.txt, sub/b.txt]` under either root
listing order, with `a.txt` first. -/
theorem files_list_walk_order :
    (∀ children : Archive.FsForest,
      (Archive.filesList children).length = Archive.forestFileCount children) ∧
    Archive.filesList
      (.cons (.file "a.txt" 0o644)
        (.cons (.dir "sub" 0o755 (.cons (.file "b.txt" 0o644) .nil)) .nil))
      = ["a.txt", "sub/b.txt"] ∧
    Archive.filesList
      (.cons (.dir "sub" 0o755 (.cons (.file "b.txt" 0o644) .nil))
        (.cons (.file "a.txt" 0o644) .nil))
      = ["a.txt", "sub/b.txt"] := by
  refine ⟨?_, rfl, rfl⟩
  intro children
  have key := walkSub_count "." children
  simp only [Archive.filesList, List.length_append]
  omega

/-- C6: when the destination identifier already exists under the archive path
(so in particular `ARCHIVE_PATH/files` exists, since it contains the
identifier), the run exits with code 1 — the `FileExistsError` raised by
`os.makedirs` at archive.py line 69 — before any file is copied into the
destination: the copy stage never runs and no copytree action appears in the
trace. -/
theorem destination_exists_aborts (fs : Archive.FsInit) (c : Archive.Collab)
    (hdest : fs.filesDestExists = true) (hparent : fs.filesParentExists = true) :
    (Archive.archiveRun fs c).exit = 1 ∧
    (Archive.archiveRun fs c).copied = false ∧
    ((Archive.archiveRun fs c).events.all
      fun e => !(e == Archive.Ev.copytree Archive.PathId.filesDest)) = true := by
  rcases fs with ⟨fp, fd, cp, tp⟩
  simp only at hdest hparent
  subst hdest; subst hparent
  simp [Archive.archiveRun]

/-- C6 witness: the theorem applied to the initial state in which both the
destination identifier and its parent directory exist. -/
theorem destination_exists_aborts_witness :
    (Archive.archiveRun
      { filesParentExists := true, filesDestExists := true,
        checksumsParentExists := false, tarballsParentExists := false }
      Archive.allOk).exit = 1 ∧
    (Archive.archiveRun
      { filesParentExists := true, filesDestExists := true,
        checksumsParentExists := false, tarballsParentExists := false }
      Archive.allOk).copied = false ∧
    ((Archive.archiveRun
      { filesParentExists := true, filesDestExists := true,
        checksumsParentExists := false, tarballsParentExists := false }
      Archive.allOk).events.all
      fun e => !(e == Archive.Ev.copytree Archive.PathId.filesDest)) = true :=
  destination_exists_aborts
    { filesParentExists := true, filesDestExists := true,
      checksumsParentExists := false, tarballsParentExists := false }
    Archive.allOk rfl rfl

/-- C7: the raw checksum text and the unencrypted compressed tar stream are
written only into the process-scoped `NamedTemporaryFile`s, and on every exit
path of each enclosing `with` step — normal completion of the stage, a failing
`check=True` tool, or an ignored gpg failure — each opened temporary file is
deleted before the process ends, so no unencrypted intermediate persists on
disk afterwards. -/
theorem tmp_intermediates_removed (fs : Archive.FsInit) (c : Archive.Collab) :
    ((Archive.archiveRun fs c).events.countP
        (Archive.isTmpOpen Archive.PathId.tmpChecksum) =
      (Archive.archiveRun fs c).events.countP
        (Archive.isTmpClose Archive.PathId.tmpChecksum)) ∧
    ((Archive.archiveRun fs c).events.countP
        (Archive.isTmpOpen Archive.PathId.tmpTar) =
      (Archive.archiveRun fs c).events.countP
        (Archive.isTmpClose Archive.PathId.tmpTar)) ∧
    (Archive.archiveRun fs c).events.all Archive.unencryptedOnlyInTmp = true := by
  revert fs c
  decide

/-- C8: any second or later invocation against the same archive path — even
with a fresh identifier — exits with code 1 before copying anything, because
`os.makedirs(os.path.dirname(files_dest_path))` at archive.py line 69 is
called without `exist_ok` and `ARCHIVE_PATH/files` was created by the earlier
invocation, so it raises `FileExistsError` immediately. -/
theorem second_invocation_aborts (fs : Archive.FsInit) (c : Archive.Collab)
    (hparent : fs.filesParentExists = true) :
    (Archive.archiveRun fs c).exit = 1 ∧
    (Archive.archiveRun fs c).copied = false ∧
    ((Archive.archiveRun fs c).events.all
      fun e => !(e == Archive.Ev.copytree Archive.PathId.filesDest)) = true := by
  rcases fs with ⟨fp, fd, cp, tp⟩
  simp only at hparent
  subst hparent
  simp [Archive.archiveRun]

/-- C8 witness: the theorem applied to the state an earlier run leaves behind
(`ARCHIVE_PATH/files` exists, the fresh identifier's destination does not). -/
theorem second_invocation_aborts_witness :
    (Archive.archiveRun
      { filesParentExists := true, filesDestExists := false,
        checksumsParentExists := true, tarballsParentExists := true }
      Archive.allOk).exit = 1 ∧
    (Archive.archiveRun
      { filesParentExists := true, filesDestExists := false,
        checksumsParentExists := true, tarballsParentExists := true }
      Archive.allOk).copied = false ∧
    ((Archive.archiveRun
      { filesParentExists := true, filesDestExists := false,
        checksumsParentExists := true, tarballsParentExists := true }
      Archive.allOk).events.all
      fun e => !(e == Archive.Ev.copytree Archive.PathId.filesDest)) = true :=
  second_invocation_aborts
    { filesParentExists := true, filesDestExists := false,
      checksumsParentExists := true, tarballsParentExists := true }
    Archive.allOk rfl

/-- C9: the image-resizing loop attempts both conversions of every image
(2·n invocations for n sources) regardless of failures of earlier images or
of the other size of the same image, and the process exits 0 exactly when
every invocation succeeded, 1 otherwise. -/
theorem imgsizes_attempts_all_and_exit (sources : List (Bool × Bool)) :
    (ImgSizes.imgsizesMain sources).1 = 2 * sources.length ∧
    ((ImgSizes.imgsizesMain sources).2 = 0 ↔
      ∀ s ∈ sources, s.1 = true ∧ s.2 = true) := by
  constructor
  · exact convertLoop_fst sources false
  · simp only [ImgSizes.imgsizesMain, convertLoop_snd, Bool.false_or]
    have hiff : (sources.any (fun s => !s.1 || !s.2) = false) ↔
        ∀ s ∈ sources, s.1 = true ∧ s.2 = true := by
      simp [List.any_eq_false]
    rcases hb : sources.any (fun s => !s.1 || !s.2) with _ | _
    · simpa using hiff.mp hb
    · constructor
      · intro hc
        simp at hc
      · intro hall
        have hfalse := hiff.mpr hall
        simp [hfalse] at hb

/-- C10: `set_readonly` is idempotent and permission-non-increasing: masking a
mode with `0o555` is a fixed point under a second application, the resulting
mode contains no permission bit the original lacked (its conjunction with the
original mode is itself), and the result never has any write bit set, so a
later `set_readonly` touching an already-locked path leaves it locked. -/
theorem setReadonly_idempotent_nonincreasing (m : Nat) :
    Archive.setReadonlyMode (Archive.setReadonlyMode m) = Archive.setReadonlyMode m ∧
    Archive.setReadonlyMode m &&& m = Archive.setReadonlyMode m ∧
    Archive.setReadonlyMode m &&& Archive.writeBits = 0 := by
  unfold Archive.setReadonlyMode Archive.writeBits
  refine ⟨?_, ?_, ?_⟩
  · rw [Nat.land_assoc, show ((0o555 : Nat) &&& 0o555) = 0o555 from by decide]
  · apply Nat.eq_of_testBit_eq
    intro i
    simp only [Nat.testBit_land]
    cases m.testBit i <;> cases Nat.testBit 0o555 i <;> rfl
  · rw [Nat.land_assoc, show ((0o555 : Nat) &&& 0o222) = 0 from by decide,
      Nat.and_zero]
